import Mathlib

/-
Verification of the caching and partitioned-dataset mechanism of the
pubdata repository (src/pubdata).  The Python source is shallowly
embedded: the filesystem becomes an explicit association list from path
strings to file contents, pandas dataframes become rectangular tables of
typed cells, and every stateful function is translated to a pure state
passing function.  Definitions follow the corresponding source functions
(cbp.py, qcew.py, naics.py, geography.py, agcensus.py) line by line.
-/

namespace Pubdata

instance {ε α : Type} [DecidableEq ε] [DecidableEq α] : DecidableEq (Except ε α) := fun x y =>
  match x, y with
  | .error e1, .error e2 =>
    if h : e1 = e2 then .isTrue (by simp [h]) else .isFalse (by simp [h])
  | .error _, .ok _ => .isFalse (by simp)
  | .ok _, .error _ => .isFalse (by simp)
  | .ok a1, .ok a2 =>
    if h : a1 = a2 then .isTrue (by simp [h]) else .isFalse (by simp [h])

/-- Association-list lookup; models Python `dict` membership / `path.exists()`
checks over an explicit store. -/
def assocFind {κ β : Type} [DecidableEq κ] (k : κ) : List (κ × β) → Option β
  | [] => none
  | (k2, v) :: rest => if k = k2 then some v else assocFind k rest

/-- Model of `str.format` with positional "\x7b\x7d" placeholders, as used by
`cacher` path templates in cbp.py (`p.format(*args)`).  Placeholders are
filled left to right from `args`; a placeholder with no remaining argument
(undefined behavior in the source) is left as literal text. -/
def formatChars : List Char → List String → List Char
  | [], _ => []
  | [c], _ => [c]
  | c :: d :: rest, args =>
    if c = '\x7b' ∧ d = '\x7d' then
      match args with
      | a :: args2 => a.data ++ formatChars rest args2
      | [] => c :: d :: formatChars rest []
    else c :: formatChars (d :: rest) args
termination_by structural l _ => l

def formatStr (tmpl : String) (args : List String) : String :=
  String.mk (formatChars tmpl.data args)

/-- Split a character list at every occurrence of `sep` (semantics of
`String.splitOn` with a one-character separator). -/
def splitChar (sep : Char) (l : List Char) : List String :=
  l.foldr
    (fun c acc =>
      match acc with
      | [] => [String.mk [c]]
      | s :: rest => if c = sep then "" :: s :: rest else String.mk (c :: s.data) :: rest)
    [""]

/-- Join path components with slashes (`String.intercalate "/"`). -/
def joinSlash : List String → String
  | [] => ""
  | [s] => s
  | s :: rest => s ++ "/" ++ joinSlash rest

/-- All proper ancestor directories of a slash-separated path, shortest
first: the directories `pathlib.Path.parent.mkdir(parents=True)` ensures. -/
def parentDirs (p : String) : List String :=
  let comps := (splitChar '/' p.data).dropLast
  (List.range comps.length).map (fun i => joinSlash (comps.take (i + 1)))

/-- Model of `p.parent.mkdir(parents=True, exist_ok=True)`: add every missing
ancestor directory of `p` to the set of existing directories. -/
def mkdirs (p : String) (dirs : List String) : List String :=
  (parentDirs p).foldl (fun ds d => if d ∈ ds then ds else ds ++ [d]) dirs

/-- Filesystem state: files (path to content) and existing directories. -/
structure DiskState (α : Type) where
  files : List (String × α)
  dirs : List String
deriving DecidableEq

/-- Model of `wrapped` inside `cacher(dump, load)(path)(func)` in cbp.py:
render the path template from the arguments; if the file exists return
`load` of its content (producer not called), otherwise call the producer,
create parent directories, `dump` the result to the path and return it.
The third component counts producer invocations performed by this call. -/
def wrapped {α β : Type} (tmpl : String) (dump : β → α) (load : α → β)
    (func : List String → β) (args : List String) (st : DiskState α) :
    β × DiskState α × Nat :=
  let p := formatStr tmpl args
  match assocFind p st.files with
  | some v => (load v, st, 0)
  | none =>
    let res := func args
    (res, ⟨(p, dump res) :: st.files, mkdirs p st.dirs⟩, 1)

/-- Model of the same `wrapped`, with fallible producer, `dump` and `load`
(Python exceptions become `Except`).  The source wraps none of these calls
in try/except, so an error in any of them propagates to the caller; `dump`
runs only after the producer has returned successfully, and the file is
recorded only after `dump` has returned successfully. -/
def wrappedE {α β ε : Type} (tmpl : String) (dump : β → Except ε α)
    (load : α → Except ε β) (func : List String → Except ε β)
    (args : List String) (st : DiskState α) : Except ε β × DiskState α :=
  let p := formatStr tmpl args
  match assocFind p st.files with
  | some v => (load v, st)
  | none =>
    match func args with
    | .error e => (.error e, st)
    | .ok res =>
      let st2 : DiskState α := ⟨st.files, mkdirs p st.dirs⟩
      match dump res with
      | .error e => (.error e, st2)
      | .ok v => (.ok res, ⟨(p, v) :: st2.files, st2.dirs⟩)

/- ### Parquet serializer model (`cache_pq` in cbp.py)

`cache_pq = cacher(pd.DataFrame.to_parquet(..., index=False), pd.read_parquet)`.
A dataframe is a rectangular table of typed cells over a declared schema;
a parquet file stores the schema, the row count (parquet file metadata)
and the data column by column. -/

inductive DType
  | tstr
  | tint
  | tfloat
  | tcat
deriving DecidableEq

inductive Cell
  | vstr (s : String)
  | vint (n : Int)
  | vfloat (q : Option Rat)
  | null
deriving DecidableEq

def cellOk : Cell → DType → Bool
  | .vstr _, .tstr => true
  | .vstr _, .tcat => true
  | .vint _, .tint => true
  | .vfloat _, .tfloat => true
  | .null, _ => true
  | _, _ => false

structure Table where
  schema : List (String × DType)
  rows : List (List Cell)
deriving DecidableEq

def rowOk (schema : List (String × DType)) (r : List Cell) : Bool :=
  (r.length == schema.length) && (r.zip schema).all (fun cz => cellOk cz.1 cz.2.2)

/-- A table conforms to its declared schema: every row has one cell per
schema column and each cell has the column's type. -/
def Table.wf (t : Table) : Bool := t.rows.all (rowOk t.schema)

structure ParquetFile where
  schema : List (String × DType)
  numRows : Nat
  cols : List (List Cell)
deriving DecidableEq

/-- Columnar serialization: `pd.DataFrame.to_parquet(engine='pyarrow',
index=False)` writes the schema, the row count and one array per column
(the index is dropped, which the row-major model has no index to drop). -/
def to_parquet (t : Table) : ParquetFile :=
  ⟨t.schema, t.rows.length,
   (List.range t.schema.length).map (fun i => t.rows.map (fun r => r.getD i .null))⟩

/-- `pd.read_parquet(engine='pyarrow')`: reassemble rows from the stored
columns, one row per recorded row index. -/
def read_parquet (f : ParquetFile) : Table :=
  ⟨f.schema, (List.range f.numRows).map (fun j => f.cols.map (fun c => c.getD j .null))⟩

/- ### Remote fetchers -/

/-- Errors a fetcher can raise.  A failed `assert` raises `AssertionError`
with the given message (a configuration-level fail-fast check); referencing
a never-assigned local (`url` in `_get_cbp_src` when no `geo` branch
matches) raises `UnboundLocalError`. -/
inductive FetchErr
  | assertionError (msg : String)
  | unboundLocal
deriving DecidableEq

/-- True when the failure is the configuration-level key-membership assert
(rather than success or an unrelated low-level error). -/
def isConfigFailure {α : Type} : Except FetchErr α → Bool
  | .error (.assertionError _) => true
  | _ => false

namespace naics

def src_url_base : String := "https://www.census.gov/naics/"

/-- The static URL lookup table `_src_urls` of naics.py. -/
def src_urls : List ((Nat × String) × String) :=
  [((1997, "code"), "https://www2.census.gov/programs-surveys/cbp/technical-documentation/reference/naics-descriptions/naics.txt"),
   ((2002, "code"), src_url_base ++ "reference_files_tools/2002/naics_2_6_02.txt"),
   ((2007, "code"), src_url_base ++ "reference_files_tools/2007/naics07.txt"),
   ((2012, "code"), src_url_base ++ "2012NAICS/2-digit_2012_Codes.xls"),
   ((2017, "code"), src_url_base ++ "2017NAICS/2-6%20digit_2017_Codes.xlsx"),
   ((2022, "code"), src_url_base ++ "2022NAICS/2-6%20digit_2022_Codes.xlsx"),
   ((2007, "index"), src_url_base ++ "2007NAICS/2007_NAICS_Index_File.xls"),
   ((2012, "index"), src_url_base ++ "2012NAICS/2012_NAICS_Index_File.xls"),
   ((2017, "index"), src_url_base ++ "2017NAICS/2017_NAICS_Index_File.xlsx"),
   ((2022, "index"), src_url_base ++ "2022NAICS/2022_NAICS_Index_File.xlsx"),
   ((2017, "descriptions"), src_url_base ++ "2017NAICS/2017_NAICS_Descriptions.xlsx"),
   ((2022, "descriptions"), src_url_base ++ "2022NAICS/2022_NAICS_Descriptions.xlsx"),
   ((2017, "summary"), src_url_base ++ "2017NAICS/2017_NAICS_Structure_Summary_Table.xlsx"),
   ((2022, "summary"), src_url_base ++ "2022NAICS/2022_NAICS_Structure_Summary_Table.xlsx")]

/-- Numeric value of one hexadecimal digit (code points 0-9, A-F, a-f). -/
def hexVal (c : Char) : Option Nat :=
  let n := c.toNat
  if 48 ≤ n ∧ n ≤ 57 then some (n - 48)
  else if 65 ≤ n ∧ n ≤ 70 then some (n - 55)
  else if 97 ≤ n ∧ n ≤ 102 then some (n - 87)
  else none

/-- `urllib.parse.unquote`: decode percent-escaped bytes. -/
def unquoteChars : List Char → List Char
  | [] => []
  | [c] => [c]
  | [c, d] => [c, d]
  | c :: a :: b :: rest =>
    if c = '%' then
      match hexVal a, hexVal b with
      | some x, some y => Char.ofNat (16 * x + y) :: unquoteChars rest
      | _, _ => c :: unquoteChars (a :: b :: rest)
    else c :: unquoteChars (a :: b :: rest)
termination_by structural l => l

def unquote (s : String) : String := String.mk (unquoteChars s.data)

/-- `pathlib.Path(urllib.parse.urlparse(url).path).name`: the last
slash-separated segment of the URL. -/
def lastSegment (url : String) : String :=
  (splitChar '/' url.data).getLastD ""

/-- The local path naics.get_src stores a source file at:
`PATH['source']/f'{year}/{fname}'` with `fname` derived from the URL. -/
def srcPath (year : Nat) (url : String) : String :=
  s!"data/source/naics/{year}/{unquote (lastSegment url)}"

/-- Model of naics.get_src: assert the key is in `_src_urls` (else
AssertionError), derive the local file name from the URL, return the local
path if the file exists, otherwise download it (one network call) and
return the path.  State is the list of existing local files; the third
result component counts downloads performed. -/
def get_src (year : Nat) (kind : String) (fs : List String) :
    Except FetchErr (String × List String × Nat) :=
  match assocFind (year, kind) src_urls with
  | none => .error (.assertionError "Source file not available.")
  | some url =>
    let path := srcPath year url
    if path ∈ fs then .ok (path, fs, 0)
    else .ok (path, path :: fs, 1)

end naics

namespace geography

def tiger_base : String := "https://www2.census.gov/geo/tiger/"

/-- The `urls` table of geography.get_county_src: eight explicit entries
plus the 2014-2020 comprehension over the three scales. -/
def county_urls : List ((Nat × String) × String) :=
  [((1990, "20m"), tiger_base ++ "PREVGENZ/co/co90shp/co99_d90_shp.zip"),
   ((2000, "20m"), tiger_base ++ "PREVGENZ/co/co00shp/co99_d00_shp.zip"),
   ((2010, "20m"), tiger_base ++ "GENZ2010/gz_2010_us_050_00_20m.zip"),
   ((2010, "5m"), tiger_base ++ "GENZ2010/gz_2010_us_050_00_5m.zip"),
   ((2010, "500k"), tiger_base ++ "GENZ2010/gz_2010_us_050_00_500k.zip"),
   ((2013, "20m"), tiger_base ++ "GENZ2013/cb_2013_us_county_20m.zip"),
   ((2013, "5m"), tiger_base ++ "GENZ2013/cb_2013_us_county_5m.zip"),
   ((2013, "500k"), tiger_base ++ "GENZ2013/cb_2013_us_county_500k.zip")]
  ++ (List.range' 2014 7).flatMap
      (fun y => ["20m", "5m", "500k"].map
        (fun s => ((y, s), s!"{tiger_base}GENZ{y}/shp/cb_{y}_us_county_{s}.zip")))

/-- Model of geography.get_county_src: assert the (year, scale) key is in
the URL table (else AssertionError naming the key), then return the local
zip path, downloading it first if absent. -/
def get_county_src (year : Nat) (scale : String) (fs : List String) :
    Except FetchErr (String × List String × Nat) :=
  match assocFind (year, scale) county_urls with
  | none => .error (.assertionError s!"No county shapes in {year}, {scale}.")
  | some _url =>
    let localPath := s!"data/source/geo/county/{year}_{scale}.zip"
    if localPath ∈ fs then .ok (localPath, fs, 0)
    else .ok (localPath, localPath :: fs, 1)

end geography

/- ### Partitioned store: rows, filters, reader -/

/-- One data row of a partition file: named string fields.  The partition
key (year) is not stored in the file; it is encoded in the directory name
and reconstructed at read time. -/
abbrev Row := List (String × String)

/-- Read-time filters as passed to `pyarrow.parquet._filters_to_expression`:
a list of `(column, op, value)` tuples, conjoined.  `eqStr` is
`(col, '==', v)` over in-file string columns; `inYears` is
`(col, 'in', years)` over the integer partition field. -/
inductive Filt
  | eqStr (col : String) (v : String)
  | inYears (col : String) (ys : List Nat)
deriving DecidableEq

/-- Whether a row of the partition with key `y` satisfies a filter.
`inYears` filters are used by the source only on the partition field
(`year` in qcew.py, reconstructed from the directory name). -/
def rowSat (y : Nat) (r : Row) : Filt → Bool
  | .eqStr c v => assocFind c r == some v
  | .inYears c ys => c == "year" && ys.contains y

/-- `to_table(columns=cols)`: keep only the requested columns. -/
def projRow (cols : Option (List String)) (r : Row) : Row :=
  match cols with
  | none => r
  | some cs => r.filter (fun kv => cs.contains kv.1)

/-- Dataset scan over the partition files present under the root:
`pyarrow.dataset.dataset(root, partitioning=['year'])` discovers whatever
partition directories exist, tags each row with the year parsed from its
directory name, and keeps the rows satisfying all filters. -/
def readParts (parts : List (Nat × List Row)) (fl : List Filt) : List (Nat × Row) :=
  parts.flatMap (fun p => ((p.2).filter (fun r => fl.all (rowSat p.1 r))).map (fun r => (p.1, r)))

namespace qcew

/-- Model of qcew._build_pq: if the partition file for `year` exists,
return (no write); otherwise process the source file for that year
(modelled by `build`) and write the partition. -/
def _build_pq (build : Nat → List Row) (year : Nat) (parts : List (Nat × List Row)) :
    List (Nat × List Row) :=
  if (assocFind year parts).isSome then parts
  else parts ++ [(year, build year)]

/-- Model of qcew.get_df (agcensus.get_df has the same shape with `YEAR`):
build any missing requested partitions, append `('year', 'in', years)` to
the caller's filter list (`filters.append` mutates the caller's list in
place; the returned third component is the value of that list after the
call), then scan the store.  Returns (result rows, store after, filter
list after). -/
def get_df (build : Nat → List Row) (parts : List (Nat × List Row)) (years : List Nat)
    (cols : Option (List String)) (filters : Option (List Filt)) :
    List (Nat × Row) × List (Nat × List Row) × List Filt :=
  let parts2 := years.foldl
    (fun ps y => if (assocFind y ps).isSome then ps else _build_pq build y ps) parts
  let fl := (match filters with | none => ([] : List Filt) | some l => l)
    ++ [Filt.inYears "year" years]
  ((readParts parts2 fl).map (fun yr => (yr.1, projRow cols yr.2)), parts2, fl)

end qcew

namespace cbp

/-- The local path cbp._get_cbp_src stores a source file at:
`PATH['src']/f'{geo}/{year}.{ext}'`. -/
def srcPath (geo : String) (year : Nat) : String :=
  let ext := if geo = "us" ∧ year < 2008 then "txt" else "zip"
  s!"data/cbp/src/{geo}/{year}.{ext}"

/-- Model of cbp._get_cbp_src: return the local source path if present;
otherwise pick the download URL from the geo branch (`url` stays unassigned
for an unrecognized geo, so `download_file(url, ...)` raises
UnboundLocalError) and download. -/
def _get_cbp_src (geo : String) (year : Nat) (fs : List String) :
    Except FetchErr (String × List String × Nat) :=
  let ext := if geo = "us" ∧ year < 2008 then "txt" else "zip"
  let path := srcPath geo year
  if path ∈ fs then .ok (path, fs, 0)
  else
    let yr := (toString year).drop 2
    let url : Option String :=
      if geo = "us" then
        some s!"https://www2.census.gov/programs-surveys/cbp/datasets/{year}/cbp{yr}us.{ext}"
      else if geo = "state" then
        some s!"https://www2.census.gov/programs-surveys/cbp/datasets/{year}/cbp{yr}st.zip"
      else if geo = "county" then
        some s!"https://www2.census.gov/programs-surveys/cbp/datasets/{year}/cbp{yr}co.zip"
      else none
    match url with
    | none => .error FetchErr.unboundLocal
    | some _ => .ok (path, path :: fs, 1)

/-- Model of cbp.get_parquet: scan all partition files present under the
geo directory, with optional column projection and filters. -/
def get_parquet (parts : List (Nat × List Row)) (cols : Option (List String))
    (filters : Option (List Filt)) : List (Nat × Row) :=
  (readParts parts (match filters with | none => [] | some l => l)).map
    (fun yr => (yr.1, projRow cols yr.2))

/-- Model of cbp.get_df as a store transition: if the partition file for
(geo, year) exists, read and return it (no write); otherwise run the
year- and geo-specific transformation of the raw source (modelled by
`transform`), write the partition and return the rows. -/
def get_df (transform : String → Nat → List Row) (geo : String) (year : Nat)
    (parts : List ((String × Nat) × List Row)) :
    List Row × List ((String × Nat) × List Row) :=
  match assocFind (geo, year) parts with
  | some rows => (rows, parts)
  | none =>
    let df := transform geo year
    (df, parts ++ [((geo, year), df)])

/-- Inner loop of cbp.build_all_parquet: `for geo in gs: get_df(geo, year)`. -/
def build_geos (transform : String → Nat → List Row) (gs : List String) (year : Nat)
    (parts : List ((String × Nat) × List Row)) : List ((String × Nat) × List Row) :=
  gs.foldl (fun ps g => (get_df transform g year ps).2) parts

/-- Outer loop of cbp.build_all_parquet. -/
def build_years (transform : String → Nat → List Row) (ys : List Nat) (gs : List String)
    (parts : List ((String × Nat) × List Row)) : List ((String × Nat) × List Row) :=
  ys.foldl (fun ps y => build_geos transform gs y ps) parts

/-- Model of cbp.build_all_parquet: `for year in range(1986, 2020): for geo
in ['us', 'state', 'county']: get_df(geo, year)`. -/
def build_all_parquet (transform : String → Nat → List Row)
    (parts : List ((String × Nat) × List Row)) : List ((String × Nat) × List Row) :=
  build_years transform (List.range' 1986 34) ["us", "state", "county"] parts

end cbp

/- ### Helper lemmas -/

theorem mem_foldl_insert (l ds : List String) (d : String)
    (h : d ∈ l ∨ d ∈ ds) :
    d ∈ l.foldl (fun acc e => if e ∈ acc then acc else acc ++ [e]) ds := by
  induction l generalizing ds with
  | nil => simpa using h.resolve_left (by simp)
  | cons e rest ih =>
    simp only [List.foldl_cons]
    apply ih
    rcases h with hl | hds
    · rcases List.mem_cons.mp hl with he | hrest
      · subst he
        right
        split
        · assumption
        · simp
      · exact Or.inl hrest
    · right
      split
      · exact hds
      · exact List.mem_append_left _ hds

theorem mem_mkdirs_of_mem_parentDirs (p d : String) (dirs : List String)
    (h : d ∈ parentDirs p) : d ∈ mkdirs p dirs :=
  mem_foldl_insert _ _ _ (Or.inl h)

theorem assocFind_append_of_some {κ β : Type} [DecidableEq κ] (k : κ) (v : β)
    (l1 l2 : List (κ × β)) (h : assocFind k l1 = some v) :
    assocFind k (l1 ++ l2) = some v := by
  induction l1 with
  | nil => simp [assocFind] at h
  | cons q rest ih =>
    obtain ⟨k2, w⟩ := q
    by_cases hk : k = k2
    · subst hk
      simp [assocFind] at h ⊢
      exact h
    · simp [assocFind, hk] at h ⊢
      exact ih h

theorem assocFind_append_of_none {κ β : Type} [DecidableEq κ] (k : κ)
    (l1 l2 : List (κ × β)) (h : assocFind k l1 = none) :
    assocFind k (l1 ++ l2) = assocFind k l2 := by
  induction l1 with
  | nil => simp
  | cons q rest ih =>
    obtain ⟨k2, w⟩ := q
    by_cases hk : k = k2
    · subst hk
      simp [assocFind] at h
    · simp [assocFind, hk] at h ⊢
      exact ih h

theorem assocFind_isSome_of_mem {κ β : Type} [DecidableEq κ] (k : κ) (v : β)
    (l : List (κ × β)) (h : (k, v) ∈ l) : (assocFind k l).isSome = true := by
  induction l with
  | nil => cases h
  | cons q rest ih =>
    obtain ⟨k2, w⟩ := q
    by_cases hk : k = k2
    · subst hk
      simp [assocFind]
    · rcases List.mem_cons.mp h with he | hrest
      · cases he
        exact absurd rfl hk
      · simp only [assocFind, if_neg hk]
        exact ih hrest

theorem map_range_getD {γ : Type} (l : List γ) (d : γ) :
    (List.range l.length).map (fun i => l.getD i d) = l := by
  induction l with
  | nil => rfl
  | cons x xs ih =>
    rw [List.length_cons, List.range_succ_eq_map, List.map_cons, List.map_map]
    simp only [Function.comp_def, List.getD_cons_zero, List.getD_cons_succ]
    rw [ih]

theorem map_range_getD_of_length {γ : Type} (l : List γ) (d : γ) (n : Nat)
    (h : l.length = n) :
    (List.range n).map (fun i => l.getD i d) = l := by
  subst h
  exact map_range_getD l d

theorem getD_map_of_lt {γ δ : Type} (l : List γ) (f : γ → δ) (j : Nat)
    (h : j < l.length) (d : δ) (d0 : γ) :
    (l.map f).getD j d = f (l.getD j d0) := by
  rw [List.getD_eq_getElem?_getD, List.getD_eq_getElem?_getD, List.getElem?_map,
    List.getElem?_eq_getElem h]
  rfl

/- ### Claim theorems -/

/-- Claim C1: for every wrapped producer and argument tuple, if the file at
the path rendered from the template with the arguments exists, the wrapped
call returns `load(path)` and does not invoke the producer (invocation
count 0, state unchanged); otherwise it invokes the producer with the
arguments, creates the parent directories of the path, calls
`dump(result, path)`, and returns the producer's result. -/
theorem cacher_hit_and_miss {α β : Type} (tmpl : String) (dump : β → α)
    (load : α → β) (func : List String → β) (args : List String)
    (st1 st2 : DiskState α) (v : α)
    (hhit : assocFind (formatStr tmpl args) st1.files = some v)
    (hmiss : assocFind (formatStr tmpl args) st2.files = none) :
    wrapped tmpl dump load func args st1 = (load v, st1, 0) ∧
    wrapped tmpl dump load func args st2 =
      (func args,
       ⟨(formatStr tmpl args, dump (func args)) :: st2.files,
        mkdirs (formatStr tmpl args) st2.dirs⟩, 1) ∧
    ∀ d ∈ parentDirs (formatStr tmpl args),
      d ∈ (wrapped tmpl dump load func args st2).2.1.dirs := by
  refine ⟨?_, ?_, ?_⟩
  · simp [wrapped, hhit]
  · simp [wrapped, hmiss]
  · intro d hd
    simp only [wrapped, hmiss]
    exact mem_mkdirs_of_mem_parentDirs _ _ _ hd

theorem cacher_hit_and_miss_witness :
    wrapped "data/cbp/raw/\x7b\x7d/\x7b\x7d.pq" (fun n : Nat => n) (fun n => n)
        (fun _ => 7) ["county", "2000"] ⟨[("data/cbp/raw/county/2000.pq", 5)], []⟩ =
      (5, ⟨[("data/cbp/raw/county/2000.pq", 5)], []⟩, 0) ∧
    wrapped "data/cbp/raw/\x7b\x7d/\x7b\x7d.pq" (fun n : Nat => n) (fun n => n)
        (fun _ => 7) ["county", "2000"] ⟨[], []⟩ =
      (7, ⟨[("data/cbp/raw/county/2000.pq", 7)],
           mkdirs "data/cbp/raw/county/2000.pq" []⟩, 1) := by
  have h := cacher_hit_and_miss "data/cbp/raw/\x7b\x7d/\x7b\x7d.pq"
    (fun n : Nat => n) (fun n => n) (fun _ => 7) ["county", "2000"]
    ⟨[("data/cbp/raw/county/2000.pq", 5)], []⟩ ⟨[], []⟩ 5 (by decide) (by decide)
  exact ⟨h.1, h.2.1⟩

/-- Claim C2: calling the cached producer twice with the same arguments
returns equal results, and the producer is invoked at most once across the
two calls.  The serializer pair must recover what it stored on the value
the producer yields (which claim C7 establishes for the parquet pair). -/
theorem cached_producer_at_most_once {α β : Type} (tmpl : String)
    (dump : β → α) (load : α → β) (func : List String → β)
    (args : List String) (st : DiskState α)
    (hrt : load (dump (func args)) = func args) :
    (wrapped tmpl dump load func args st).1 =
      (wrapped tmpl dump load func args
        ((wrapped tmpl dump load func args st).2.1)).1 ∧
    (wrapped tmpl dump load func args st).2.2 +
      (wrapped tmpl dump load func args
        ((wrapped tmpl dump load func args st).2.1)).2.2 ≤ 1 := by
  cases h : assocFind (formatStr tmpl args) st.files with
  | some v => simp [wrapped, h]
  | none =>
    constructor
    · simp [wrapped, h, assocFind, hrt]
    · simp [wrapped, h, assocFind]

theorem cached_producer_at_most_once_witness :
    (wrapped "data/cbp/parquet/\x7b\x7d.pq" to_parquet read_parquet
        (fun _ => ⟨[("area_fips", .tstr), ("emp", .tfloat)],
                   [[.vstr "01001", .vfloat (some 12)], [.vstr "01003", .null]]⟩)
        ["us"] ⟨[], []⟩).1 =
      (wrapped "data/cbp/parquet/\x7b\x7d.pq" to_parquet read_parquet
        (fun _ => ⟨[("area_fips", .tstr), ("emp", .tfloat)],
                   [[.vstr "01001", .vfloat (some 12)], [.vstr "01003", .null]]⟩)
        ["us"]
        ((wrapped "data/cbp/parquet/\x7b\x7d.pq" to_parquet read_parquet
          (fun _ => ⟨[("area_fips", .tstr), ("emp", .tfloat)],
                     [[.vstr "01001", .vfloat (some 12)], [.vstr "01003", .null]]⟩)
          ["us"] ⟨[], []⟩).2.1)).1 ∧
    (wrapped "data/cbp/parquet/\x7b\x7d.pq" to_parquet read_parquet
        (fun _ => ⟨[("area_fips", .tstr), ("emp", .tfloat)],
                   [[.vstr "01001", .vfloat (some 12)], [.vstr "01003", .null]]⟩)
        ["us"] ⟨[], []⟩).2.2 +
      (wrapped "data/cbp/parquet/\x7b\x7d.pq" to_parquet read_parquet
        (fun _ => ⟨[("area_fips", .tstr), ("emp", .tfloat)],
                   [[.vstr "01001", .vfloat (some 12)], [.vstr "01003", .null]]⟩)
        ["us"]
        ((wrapped "data/cbp/parquet/\x7b\x7d.pq" to_parquet read_parquet
          (fun _ => ⟨[("area_fips", .tstr), ("emp", .tfloat)],
                     [[.vstr "01001", .vfloat (some 12)], [.vstr "01003", .null]]⟩)
          ["us"] ⟨[], []⟩).2.1)).2.2 ≤ 1 :=
  cached_producer_at_most_once "data/cbp/parquet/\x7b\x7d.pq" to_parquet read_parquet
    (fun _ => ⟨[("area_fips", .tstr), ("emp", .tfloat)],
               [[.vstr "01001", .vfloat (some 12)], [.vstr "01003", .null]]⟩)
    ["us"] ⟨[], []⟩ (by decide)

/-- Claim C8: on a cache miss, if the producer raises then no file is
created at the cache path and the error propagates (dump runs only after
the producer returns successfully); errors raised by `load` on a hit and
by `dump` after a successful produce likewise propagate uncaught, and a
failed `dump` leaves no file at the cache path. -/
theorem cacher_error_propagation {α β ε : Type} (tmpl : String)
    (dump : β → Except ε α) (load : α → Except ε β)
    (funcBad funcOk : List String → Except ε β) (args : List String)
    (st1 st2 st3 : DiskState α) (e1 e2 e3 : ε) (v2 : α) (res : β)
    (hm1 : assocFind (formatStr tmpl args) st1.files = none)
    (hf1 : funcBad args = .error e1)
    (hh2 : assocFind (formatStr tmpl args) st2.files = some v2)
    (hl2 : load v2 = .error e2)
    (hm3 : assocFind (formatStr tmpl args) st3.files = none)
    (hf3 : funcOk args = .ok res)
    (hd3 : dump res = .error e3) :
    wrappedE tmpl dump load funcBad args st1 = (.error e1, st1) ∧
    assocFind (formatStr tmpl args)
      (wrappedE tmpl dump load funcBad args st1).2.files = none ∧
    wrappedE tmpl dump load funcOk args st2 = (.error e2, st2) ∧
    wrappedE tmpl dump load funcOk args st3 =
      (.error e3, ⟨st3.files, mkdirs (formatStr tmpl args) st3.dirs⟩) ∧
    assocFind (formatStr tmpl args)
      (wrappedE tmpl dump load funcOk args st3).2.files = none := by
  refine ⟨?_, ?_, ?_, ?_, ?_⟩
  · simp [wrappedE, hm1, hf1]
  · simp [wrappedE, hm1, hf1]
  · simp [wrappedE, hh2, hl2]
  · simp [wrappedE, hm3, hf3, hd3]
  · simp [wrappedE, hm3, hf3, hd3]

theorem cacher_error_propagation_witness :
    wrappedE "data/cbp/panel/\x7b\x7d.pq" (fun _ : Nat => Except.error "disk full")
        (fun _ : Nat => (Except.error "corrupt" : Except String Nat))
        (fun _ => Except.error "boom") ["2001"] ⟨[], []⟩ =
      (.error "boom", ⟨[], []⟩) ∧
    wrappedE "data/cbp/panel/\x7b\x7d.pq" (fun _ : Nat => Except.error "disk full")
        (fun _ : Nat => (Except.error "corrupt" : Except String Nat))
        (fun _ => Except.ok 3) ["2001"] ⟨[("data/cbp/panel/2001.pq", 9)], []⟩ =
      (.error "corrupt", ⟨[("data/cbp/panel/2001.pq", 9)], []⟩) ∧
    wrappedE "data/cbp/panel/\x7b\x7d.pq" (fun _ : Nat => Except.error "disk full")
        (fun _ : Nat => (Except.error "corrupt" : Except String Nat))
        (fun _ => Except.ok 3) ["2001"] ⟨[], []⟩ =
      (.error "disk full", ⟨[], mkdirs "data/cbp/panel/2001.pq" []⟩) := by
  have h := cacher_error_propagation "data/cbp/panel/\x7b\x7d.pq"
    (fun _ : Nat => (Except.error "disk full" : Except String Nat))
    (fun _ : Nat => (Except.error "corrupt" : Except String Nat))
    (fun _ => Except.error "boom") (fun _ => Except.ok 3) ["2001"]
    ⟨[], []⟩ ⟨[("data/cbp/panel/2001.pq", 9)], []⟩ ⟨[], []⟩
    "boom" "corrupt" "disk full" 9 3
    (by decide) rfl (by decide) rfl (by decide) rfl rfl
  exact ⟨h.1, h.2.2.1, h.2.2.2.1⟩

/-- Claim C7: for every table conforming to the declared schema (empty
tables included), dumping with the parquet serializer of `cache_pq` and
loading the file back is the identity: `read_parquet (to_parquet t) = t`. -/
theorem parquet_round_trip (t : Table) (h : t.wf = true) :
    read_parquet (to_parquet t) = t := by
  obtain ⟨schema, rows⟩ := t
  simp only [Table.wf, List.all_eq_true] at h
  simp only [read_parquet, to_parquet, Table.mk.injEq, true_and]
  have hlen : ∀ r ∈ rows, r.length = schema.length := by
    intro r hr
    have := h r hr
    simp only [rowOk, Bool.and_eq_true, beq_iff_eq] at this
    exact this.1
  have hrow : ∀ j, j < rows.length →
      ((List.range schema.length).map (fun i => rows.map (fun r => r.getD i Cell.null))).map
        (fun c => c.getD j Cell.null) = rows.getD j [] := by
    intro j hj
    rw [List.map_map]
    have hcell : ∀ i : Nat,
        (rows.map (fun r => r.getD i Cell.null)).getD j Cell.null
          = (rows.getD j []).getD i Cell.null := by
      intro i
      exact getD_map_of_lt rows (fun r => r.getD i Cell.null) j hj Cell.null []
    calc (List.range schema.length).map
          ((fun c => c.getD j Cell.null) ∘ fun i => rows.map (fun r => r.getD i Cell.null))
        = (List.range schema.length).map (fun i => (rows.getD j []).getD i Cell.null) := by
          apply List.map_congr_left
          intro i _
          exact hcell i
      _ = rows.getD j [] := by
          apply map_range_getD_of_length
          apply hlen
          rw [List.getD_eq_getElem rows [] hj]
          exact List.getElem_mem hj
  calc (List.range rows.length).map (fun j =>
          ((List.range schema.length).map
            (fun i => rows.map (fun r => r.getD i Cell.null))).map
            (fun c => c.getD j Cell.null))
      = (List.range rows.length).map (fun j => rows.getD j []) := by
        apply List.map_congr_left
        intro j hjr
        exact hrow j (List.mem_range.mp hjr)
    _ = rows := map_range_getD rows []

theorem parquet_round_trip_witness :
    Table.wf ⟨[("area_fips", .tstr), ("year", .tint), ("emp", .tfloat)],
      [[.vstr "01001", .vint 1990, .vfloat (some 12)],
       [.vstr "01003", .vint 1990, .null]]⟩ = true ∧
    read_parquet (to_parquet ⟨[("area_fips", .tstr), ("year", .tint), ("emp", .tfloat)],
      [[.vstr "01001", .vint 1990, .vfloat (some 12)],
       [.vstr "01003", .vint 1990, .null]]⟩) =
      ⟨[("area_fips", .tstr), ("year", .tint), ("emp", .tfloat)],
       [[.vstr "01001", .vint 1990, .vfloat (some 12)],
        [.vstr "01003", .vint 1990, .null]]⟩ ∧
    read_parquet (to_parquet ⟨[("area_fips", .tstr), ("year", .tint)], []⟩) =
      ⟨[("area_fips", .tstr), ("year", .tint)], []⟩ :=
  ⟨by decide,
   parquet_round_trip ⟨[("area_fips", .tstr), ("year", .tint), ("emp", .tfloat)],
     [[.vstr "01001", .vint 1990, .vfloat (some 12)],
      [.vstr "01003", .vint 1990, .null]]⟩ (by decide),
   parquet_round_trip ⟨[("area_fips", .tstr), ("year", .tint)], []⟩ (by decide)⟩

/-- Claim C3: a read over a partitioned store in which only some of the
expected partitions exist returns exactly the union of the rows of the
present partitions, each tagged with its partition key, and does not
raise; a key with no partition file contributes no rows at all. -/
theorem missing_partitions_tolerated (parts : List (Nat × List Row)) (k : Nat)
    (habsent : assocFind k parts = none) :
    cbp.get_parquet parts none none =
      parts.flatMap (fun p => p.2.map (fun r => (p.1, r))) ∧
    ∀ r, (k, r) ∉ cbp.get_parquet parts none none := by
  have hread : cbp.get_parquet parts none none =
      parts.flatMap (fun p => p.2.map (fun r => (p.1, r))) := by
    simp [cbp.get_parquet, readParts, projRow]
  refine ⟨hread, ?_⟩
  intro r hmem
  rw [hread, List.mem_flatMap] at hmem
  obtain ⟨p, hp, hpr⟩ := hmem
  rw [List.mem_map] at hpr
  obtain ⟨r0, _, heq⟩ := hpr
  have hk : p.1 = k := congrArg Prod.fst heq
  have hsome : (assocFind k parts).isSome = true := by
    apply assocFind_isSome_of_mem k p.2
    rw [← hk]
    exact hp
  rw [habsent] at hsome
  cases hsome

theorem missing_partitions_tolerated_witness :
    assocFind 1991 [(1990, [[("area_fips", "01001")]]), (1992, [[("area_fips", "01003")]])]
        = (none : Option (List Row)) ∧
    cbp.get_parquet [(1990, [[("area_fips", "01001")]]), (1992, [[("area_fips", "01003")]])]
        none none =
      [(1990, [("area_fips", "01001")]), (1992, [("area_fips", "01003")])] ∧
    (1991, [("area_fips", "01001")]) ∉
      cbp.get_parquet [(1990, [[("area_fips", "01001")]]), (1992, [[("area_fips", "01003")]])]
        none none := by
  have h := missing_partitions_tolerated
    [(1990, [[("area_fips", "01001")]]), (1992, [[("area_fips", "01003")]])] 1991 (by decide)
  exact ⟨by decide, h.1, h.2 [("area_fips", "01001")]⟩

/-- Claim C4: for distinct partition keys stored in the same partitioned
store, reading with the year filter selecting only the first key never
returns a row tagged with the second key. -/
theorem read_filter_partition_isolation (build : Nat → List Row)
    (parts : List (Nat × List Row)) (k1 k2 : Nat)
    (cols : Option (List String)) (filters : Option (List Filt)) (r : Row)
    (hne : k1 ≠ k2) :
    (k2, r) ∉ (qcew.get_df build parts [k1] cols filters).1 := by
  intro hmem
  simp only [qcew.get_df] at hmem
  rw [List.mem_map] at hmem
  obtain ⟨yr, hyr, heq⟩ := hmem
  have hy : yr.1 = k2 := congrArg Prod.fst heq
  rw [readParts, List.mem_flatMap] at hyr
  obtain ⟨p, _, hpr⟩ := hyr
  rw [List.mem_map] at hpr
  obtain ⟨r0, hr0, heq0⟩ := hpr
  have hp1 : p.1 = yr.1 := congrArg Prod.fst heq0
  rw [List.mem_filter] at hr0
  have hall := hr0.2
  rw [List.all_append, Bool.and_eq_true] at hall
  have hlast := hall.2
  simp only [List.all_cons, List.all_nil, Bool.and_true, rowSat, beq_self_eq_true,
    Bool.true_and] at hlast
  have : p.1 = k1 := by simpa using hlast
  rw [hp1, hy] at this
  exact hne this.symm

theorem read_filter_partition_isolation_witness :
    (1990 : Nat) ≠ 1992 ∧
    (1992, [("area_fips", "01001")]) ∉
      (qcew.get_df (fun _ => [])
        [(1990, [[("area_fips", "01001")]]), (1992, [[("area_fips", "01003")]])]
        [1990] none none).1 :=
  ⟨by decide,
   read_filter_partition_isolation (fun _ => [])
     [(1990, [[("area_fips", "01001")]]), (1992, [[("area_fips", "01003")]])]
     1990 1992 none none [("area_fips", "01001")] (by decide)⟩

/-- Claim C5: for a key present in the URL table, if the key-derived local
file is absent the fetch performs exactly one download, creates the file
at the deterministic key-derived path and returns that path, and a second
fetch with the same key then performs zero downloads; if the file is
already present the fetch returns the existing path with zero downloads.
Holds for naics.get_src and for cbp._get_cbp_src (whose recognized geo
values play the role of table keys). -/
theorem fetch_downloads_at_most_once (year : Nat) (kind url : String)
    (fs1 fs2 : List String) (geo : String) (cyear : Nat) (cfs1 cfs2 : List String)
    (hkey : assocFind (year, kind) naics.src_urls = some url)
    (hpres : naics.srcPath year url ∈ fs1)
    (habs : naics.srcPath year url ∉ fs2)
    (hgeo : geo = "us" ∨ geo = "state" ∨ geo = "county")
    (hcp : cbp.srcPath geo cyear ∈ cfs1)
    (hca : cbp.srcPath geo cyear ∉ cfs2) :
    naics.get_src year kind fs1 = .ok (naics.srcPath year url, fs1, 0) ∧
    naics.get_src year kind fs2 =
      .ok (naics.srcPath year url, naics.srcPath year url :: fs2, 1) ∧
    naics.get_src year kind (naics.srcPath year url :: fs2) =
      .ok (naics.srcPath year url, naics.srcPath year url :: fs2, 0) ∧
    cbp._get_cbp_src geo cyear cfs1 = .ok (cbp.srcPath geo cyear, cfs1, 0) ∧
    cbp._get_cbp_src geo cyear cfs2 =
      .ok (cbp.srcPath geo cyear, cbp.srcPath geo cyear :: cfs2, 1) ∧
    cbp._get_cbp_src geo cyear (cbp.srcPath geo cyear :: cfs2) =
      .ok (cbp.srcPath geo cyear, cbp.srcPath geo cyear :: cfs2, 0) := by
  refine ⟨?_, ?_, ?_, ?_, ?_, ?_⟩
  · simp [naics.get_src, hkey, hpres]
  · simp [naics.get_src, hkey, habs]
  · simp [naics.get_src, hkey]
  · rcases hgeo with h | h | h <;> subst h <;> simp [cbp._get_cbp_src, hcp]
  · rcases hgeo with h | h | h <;> subst h <;> simp [cbp._get_cbp_src, hca]
  · rcases hgeo with h | h | h <;> subst h <;> simp [cbp._get_cbp_src]

theorem fetch_downloads_at_most_once_witness :
    naics.get_src 2017 "code" [] =
      .ok ("data/source/naics/2017/2-6 digit_2017_Codes.xlsx",
           ["data/source/naics/2017/2-6 digit_2017_Codes.xlsx"], 1) ∧
    naics.get_src 2017 "code" ["data/source/naics/2017/2-6 digit_2017_Codes.xlsx"] =
      .ok ("data/source/naics/2017/2-6 digit_2017_Codes.xlsx",
           ["data/source/naics/2017/2-6 digit_2017_Codes.xlsx"], 0) ∧
    cbp._get_cbp_src "county" 2020 [] =
      .ok ("data/cbp/src/county/2020.zip", ["data/cbp/src/county/2020.zip"], 1) ∧
    cbp._get_cbp_src "county" 2020 ["data/cbp/src/county/2020.zip"] =
      .ok ("data/cbp/src/county/2020.zip", ["data/cbp/src/county/2020.zip"], 0) := by
  have h := fetch_downloads_at_most_once 2017 "code"
    "https://www.census.gov/naics/2017NAICS/2-6%20digit_2017_Codes.xlsx"
    ["data/source/naics/2017/2-6 digit_2017_Codes.xlsx"] []
    "county" 2020 ["data/cbp/src/county/2020.zip"] []
    (by decide) (by decide) (by decide) (Or.inr (Or.inr rfl)) (by decide) (by decide)
  exact ⟨h.2.1, h.2.2.1, h.2.2.2.2.1, h.2.2.2.2.2⟩

/-- Claim C6 counterexample: the claim asserts every fetcher fails with a
configuration-level error on an unknown key, but cbp._get_cbp_src with the
unrecognized geo "tract" (and no cached file) fails with UnboundLocalError,
an unrelated low-level error: the `url` local is never assigned. -/
theorem unknown_key_config_error_counterexample :
    cbp._get_cbp_src "tract" 2020 [] = .error FetchErr.unboundLocal ∧
    isConfigFailure (cbp._get_cbp_src "tract" 2020 []) = false := by decide

/-- Claim C6 amended: for a key not present in the static URL table,
naics.get_src and geography.get_county_src fail fast with the
AssertionError raised by the key-membership assert (geography's message
names the unknown key, naics's message is a fixed string), while
cbp._get_cbp_src — whose key space is the geo branch — fails with
UnboundLocalError for an unrecognized geo when the local file is absent. -/
theorem unknown_key_failures (year : Nat) (kind : String) (fs : List String)
    (cyear : Nat) (scale : String) (geo : String) (gyear : Nat) (gfs : List String)
    (h1 : assocFind (year, kind) naics.src_urls = none)
    (h2 : assocFind (cyear, scale) geography.county_urls = none)
    (h3 : geo ≠ "us") (h4 : geo ≠ "state") (h5 : geo ≠ "county")
    (h6 : cbp.srcPath geo gyear ∉ gfs) :
    naics.get_src year kind fs =
      .error (.assertionError "Source file not available.") ∧
    geography.get_county_src cyear scale fs =
      .error (.assertionError s!"No county shapes in {cyear}, {scale}.") ∧
    cbp._get_cbp_src geo gyear gfs = .error FetchErr.unboundLocal := by
  refine ⟨?_, ?_, ?_⟩
  · simp [naics.get_src, h1]
  · simp [geography.get_county_src, h2]
  · simp [cbp._get_cbp_src, h3, h4, h5, h6]

theorem unknown_key_failures_witness :
    naics.get_src 1800 "zzz" [] =
      .error (.assertionError "Source file not available.") ∧
    geography.get_county_src 1991 "20m" [] =
      .error (.assertionError "No county shapes in 1991, 20m.") ∧
    cbp._get_cbp_src "tract" 2021 [] = .error FetchErr.unboundLocal := by
  have h := unknown_key_failures 1800 "zzz" [] 1991 "20m" "tract" 2021 []
    (by decide) (by decide) (by decide) (by decide) (by decide) (by decide)
  exact h

/-- Claim C10: when qcew.get_df (and the identically shaped
agcensus.get_df) is called with a caller-supplied filter list, it appends
the tuple `('year', 'in', years)` to that very list in place, so after the
call the caller's list is one element longer; reusing the returned list in
a second call leaves it two elements longer than the original. -/
theorem get_df_appends_year_filter (build : Nat → List Row)
    (parts parts2 : List (Nat × List Row)) (years years2 : List Nat)
    (cols cols2 : Option (List String)) (l : List Filt) :
    (qcew.get_df build parts years cols (some l)).2.2 =
      l ++ [Filt.inYears "year" years] ∧
    (qcew.get_df build parts years cols (some l)).2.2.length = l.length + 1 ∧
    (qcew.get_df build parts2 years2 cols2
        (some (qcew.get_df build parts years cols (some l)).2.2)).2.2.length =
      l.length + 2 := by
  refine ⟨rfl, ?_, ?_⟩ <;> simp [qcew.get_df]

/- ### Helper lemmas for claim C9: build loops never rewrite a partition -/

theorem get_df_noop (t : String → Nat → List Row) (g : String) (y : Nat)
    (ps : List ((String × Nat) × List Row))
    (h : (assocFind (g, y) ps).isSome = true) :
    (cbp.get_df t g y ps).2 = ps := by
  cases hf : assocFind (g, y) ps with
  | some rows => simp [cbp.get_df, hf]
  | none => rw [hf] at h; cases h

theorem get_df_preserves (t : String → Nat → List Row) (g : String) (y : Nat)
    (ps : List ((String × Nat) × List Row)) (k : String × Nat) (v : List Row)
    (h : assocFind k ps = some v) :
    assocFind k (cbp.get_df t g y ps).2 = some v := by
  cases hf : assocFind (g, y) ps with
  | some rows => simp [cbp.get_df, hf, h]
  | none =>
    simp only [cbp.get_df, hf]
    exact assocFind_append_of_some k v ps _ h

theorem get_df_self (t : String → Nat → List Row) (g : String) (y : Nat)
    (ps : List ((String × Nat) × List Row)) :
    (assocFind (g, y) (cbp.get_df t g y ps).2).isSome = true := by
  cases hf : assocFind (g, y) ps with
  | some rows => simp [cbp.get_df, hf]
  | none =>
    simp only [cbp.get_df, hf]
    rw [assocFind_append_of_none (g, y) ps _ hf]
    simp [assocFind]

theorem build_geos_preserves (t : String → Nat → List Row) (gs : List String)
    (y : Nat) (ps : List ((String × Nat) × List Row)) (k : String × Nat)
    (v : List Row) (h : assocFind k ps = some v) :
    assocFind k (cbp.build_geos t gs y ps) = some v := by
  induction gs generalizing ps with
  | nil => exact h
  | cons g rest ih =>
    simp only [cbp.build_geos, List.foldl_cons]
    exact ih _ (get_df_preserves t g y ps k v h)

theorem build_geos_isSome (t : String → Nat → List Row) (gs : List String)
    (y : Nat) (ps : List ((String × Nat) × List Row)) (k : String × Nat)
    (h : (assocFind k ps).isSome = true) :
    (assocFind k (cbp.build_geos t gs y ps)).isSome = true := by
  cases hf : assocFind k ps with
  | some v => rw [build_geos_preserves t gs y ps k v hf]; rfl
  | none => rw [hf] at h; cases h

theorem build_geos_present (t : String → Nat → List Row) (gs : List String)
    (y : Nat) (ps : List ((String × Nat) × List Row)) (g : String)
    (hg : g ∈ gs) :
    (assocFind (g, y) (cbp.build_geos t gs y ps)).isSome = true := by
  induction gs generalizing ps with
  | nil => cases hg
  | cons g0 rest ih =>
    simp only [cbp.build_geos, List.foldl_cons]
    rcases List.mem_cons.mp hg with he | hrest
    · subst he
      exact build_geos_isSome t rest y _ (g, y) (get_df_self t g y ps)
    · exact ih _ hrest

theorem build_years_isSome (t : String → Nat → List Row) (ys : List Nat)
    (gs : List String) (ps : List ((String × Nat) × List Row)) (k : String × Nat)
    (h : (assocFind k ps).isSome = true) :
    (assocFind k (cbp.build_years t ys gs ps)).isSome = true := by
  induction ys generalizing ps with
  | nil => exact h
  | cons y rest ih =>
    simp only [cbp.build_years, List.foldl_cons]
    exact ih _ (build_geos_isSome t gs y ps k h)

theorem build_years_present (t : String → Nat → List Row) (ys : List Nat)
    (gs : List String) (ps : List ((String × Nat) × List Row)) (g : String)
    (y : Nat) (hy : y ∈ ys) (hg : g ∈ gs) :
    (assocFind (g, y) (cbp.build_years t ys gs ps)).isSome = true := by
  induction ys generalizing ps with
  | nil => cases hy
  | cons y0 rest ih =>
    simp only [cbp.build_years, List.foldl_cons]
    rcases List.mem_cons.mp hy with he | hrest
    · subst he
      exact build_years_isSome t rest gs _ (g, y) (build_geos_present t gs y ps g hg)
    · exact ih _ hrest

theorem build_geos_noop (t : String → Nat → List Row) (gs : List String)
    (y : Nat) (ps : List ((String × Nat) × List Row))
    (h : ∀ g ∈ gs, (assocFind (g, y) ps).isSome = true) :
    cbp.build_geos t gs y ps = ps := by
  induction gs with
  | nil => rfl
  | cons g rest ih =>
    simp only [cbp.build_geos, List.foldl_cons] at ih ⊢
    rw [get_df_noop t g y ps (h g (List.mem_cons_self g rest))]
    exact ih (fun g2 hg2 => h g2 (List.mem_cons_of_mem g hg2))

theorem build_years_noop (t : String → Nat → List Row) (ys : List Nat)
    (gs : List String) (ps : List ((String × Nat) × List Row))
    (h : ∀ y ∈ ys, ∀ g ∈ gs, (assocFind (g, y) ps).isSome = true) :
    cbp.build_years t ys gs ps = ps := by
  induction ys with
  | nil => rfl
  | cons y rest ih =>
    simp only [cbp.build_years, List.foldl_cons] at ih ⊢
    rw [build_geos_noop t gs y ps (h y (List.mem_cons_self y rest))]
    exact ih (fun y2 hy2 => h y2 (List.mem_cons_of_mem y hy2))

/-- Claim C9: an existing partition file is never written again: when the
(geo, year) partition exists, cbp.get_df returns it without writing; when
the year partition exists, qcew._build_pq is a no-op; and running
cbp.build_all_parquet a second time rebuilds nothing, leaving every
partition file exactly as the first run left it. -/
theorem partition_files_immutable (t : String → Nat → List Row) (geo : String)
    (year : Nat) (ps : List ((String × Nat) × List Row))
    (build : Nat → List Row) (y2 : Nat) (qs : List (Nat × List Row))
    (ps3 : List ((String × Nat) × List Row))
    (h1 : (assocFind (geo, year) ps).isSome = true)
    (h2 : (assocFind y2 qs).isSome = true) :
    (cbp.get_df t geo year ps).2 = ps ∧
    qcew._build_pq build y2 qs = qs ∧
    cbp.build_all_parquet t (cbp.build_all_parquet t ps3) =
      cbp.build_all_parquet t ps3 := by
  refine ⟨get_df_noop t geo year ps h1, ?_, ?_⟩
  · simp [qcew._build_pq, h2]
  · apply build_years_noop
    intro y hy g hg
    exact build_years_present t _ _ ps3 g y hy hg

theorem partition_files_immutable_witness :
    (cbp.get_df (fun _ _ => [[("emp", "5")]]) "county" 1990
        [(("county", 1990), [[("emp", "5")]])]).2 =
      [(("county", 1990), [[("emp", "5")]])] ∧
    qcew._build_pq (fun _ => [[("emp", "5")]]) 1990 [(1990, [[("emp", "5")]])] =
      [(1990, [[("emp", "5")]])] ∧
    cbp.build_all_parquet (fun _ _ => [[("emp", "5")]])
        (cbp.build_all_parquet (fun _ _ => [[("emp", "5")]]) []) =
      cbp.build_all_parquet (fun _ _ => [[("emp", "5")]]) [] :=
  partition_files_immutable (fun _ _ => [[("emp", "5")]]) "county" 1990
    [(("county", 1990), [[("emp", "5")]])] (fun _ => [[("emp", "5")]]) 1990
    [(1990, [[("emp", "5")]])] [] (by decide) (by decide)

end Pubdata
